import Mathlib

/-!
A shallow embedding of the CCNotify notification engine
(`src/ccnotify/notify.py`): project-name resolution backed by a persisted
session cache, hook-event classification, and the content-addressed audio
cache.  Python strings are modelled as Lean strings (their character lists),
values read from the JSON documents as a `Json` value type, and Python
exceptions as `Except PyErr`.  Times are modelled as integer seconds, and
filesystem paths as already-resolved absolute path strings (symlink and
relative-path resolution performed by `Path.resolve` is outside the
embedding).
-/

namespace CCNotify

/-- Characters treated as whitespace by Python `str.strip()` and
`str.split()` (ASCII subset). -/
def isPyWs (c : Char) : Bool :=
  c == ' ' || c == '\t' || c == '\n' || c == '\r' || c == '\x0b' || c == '\x0c'

/-- Python `str.strip()` on a character list. -/
def stripL (l : List Char) : List Char :=
  ((l.dropWhile isPyWs).reverse.dropWhile isPyWs).reverse

/-- Python `str.split()` (no argument): split on whitespace runs, discarding
empty pieces. -/
def pySplit (l : List Char) : List (List Char) :=
  (l.splitOnP isPyWs).filter (· ≠ [])

/-- ASCII lower-casing of one character (Python `str.lower` restricted to the
ASCII range used by the program). -/
def lowerChar (c : Char) : Char :=
  if 'A' ≤ c && c ≤ 'Z' then Char.ofNat (c.toNat + 32) else c

/-- ASCII upper-casing of one character. -/
def upperChar (c : Char) : Char :=
  if 'a' ≤ c && c ≤ 'z' then Char.ofNat (c.toNat - 32) else c

def lowerL (l : List Char) : List Char := l.map lowerChar

/-- Python `str.lower()` (ASCII). -/
def pyLower (s : String) : String := ⟨lowerL s.toList⟩

/-- Python `str.capitalize()`: first character upper-cased, the rest
lower-cased. -/
def pyCapitalize (s : String) : String :=
  match s.toList with
  | [] => ""
  | c :: rest => ⟨upperChar c :: lowerL rest⟩

/-- Python `sub in s` (substring containment). -/
def strContains (s sub : String) : Bool := decide (sub.toList <:+: s.toList)

/-- Values parsed from the JSON documents the program reads. -/
inductive Json where
  | null
  | bool (b : Bool)
  | num (n : Int)
  | str (s : String)
  | arr (elems : List Json)
  | obj (fields : List (String × Json))

/-- The Python exceptions the unguarded dictionary code can raise. -/
inductive PyErr where
  | keyError
  | typeError
  | attributeError
  deriving DecidableEq

/-- First binding for a key in a dict's field list. -/
def findField : List (String × Json) → String → Option Json
  | [], _ => none
  | (k, v) :: rest, key => if k = key then some v else findField rest key

/-- Python `d.get(key, default)`: `AttributeError` when the receiver is not a
dict. -/
def pyGet (j : Json) (k : String) (d : Json) : Except PyErr Json :=
  match j with
  | .obj fs => .ok ((findField fs k).getD d)
  | _ => .error .attributeError

/-- Python `d[key]` for a string key: `KeyError` when the key is missing,
`TypeError` when the receiver is not a dict. -/
def pyItem (j : Json) (k : String) : Except PyErr Json :=
  match j with
  | .obj fs =>
    match findField fs k with
    | some v => .ok v
    | none => .error .keyError
  | _ => .error .typeError

/-- Python numeric coercion in arithmetic: numbers and booleans work
(`True` is 1), everything else raises `TypeError`. -/
def pyNum (j : Json) : Except PyErr Int :=
  match j with
  | .num n => .ok n
  | .bool b => .ok (if b then 1 else 0)
  | _ => .error .typeError

/-- `key in d` for a dict receiver. -/
def hasKeyB (j : Json) (k : String) : Bool :=
  match j with
  | .obj fs => (findField fs k).isSome
  | _ => false

mutual
/-- Python `repr` of a parsed JSON value (simplified: single-quoted strings,
no escaping; no claim depends on the container rendering). -/
def pyRepr : Json → String
  | .null => "None"
  | .bool b => if b then "True" else "False"
  | .num n => toString n
  | .str s => "'" ++ s ++ "'"
  | .arr es => "[" ++ String.intercalate ", " (pyReprList es) ++ "]"
  | .obj fs => "\x7b" ++ String.intercalate ", " (pyReprFields fs) ++ "\x7d"

def pyReprList : List Json → List String
  | [] => []
  | j :: rest => pyRepr j :: pyReprList rest

def pyReprFields : List (String × Json) → List String
  | [] => []
  | (k, v) :: rest => ("'" ++ k ++ "': " ++ pyRepr v) :: pyReprFields rest
end

/-- Python `str` of a parsed JSON value. -/
def pyStr (j : Json) : String :=
  match j with
  | .str s => s
  | _ => pyRepr j

/-- `CACHE_EXPIRY_DAYS = 7`. -/
def CACHE_EXPIRY_DAYS : Int := 7

/-- `expiry_seconds = CACHE_EXPIRY_DAYS * 24 * 60 * 60`. -/
def expirySeconds : Int := CACHE_EXPIRY_DAYS * 24 * 60 * 60

/-- `data.get('timestamp', 0)` followed by its use in arithmetic. -/
def entryTimestamp (data : Json) : Except PyErr Int :=
  match pyGet data "timestamp" (.num 0) with
  | .error e => .error e
  | .ok ts => pyNum ts

/-- Does an entry survive pruning at time `now`
(`current_time - data.get('timestamp', 0) < expiry_seconds`)? -/
def entryLive (now : Int) (data : Json) : Bool :=
  match entryTimestamp data with
  | .ok ts => now - ts < expirySeconds
  | .error _ => false

/-- The loop body of `clean_old_cache_entries` over the field list, raising
whatever the first bad entry raises. -/
def cleanEntries (now : Int) : List (String × Json) → Except PyErr (List (String × Json))
  | [] => .ok []
  | (sid, data) :: rest =>
    match entryTimestamp data with
    | .error e => .error e
    | .ok ts =>
      match cleanEntries now rest with
      | .error e => .error e
      | .ok tail =>
        if now - ts < expirySeconds then .ok ((sid, data) :: tail) else .ok tail

/-- `clean_old_cache_entries` (notify.py lines 224-234): iterating a non-dict
document raises `AttributeError` (`cache.items()`). -/
def clean_old_cache_entries (now : Int) (cache : Json) : Except PyErr Json :=
  match cache with
  | .obj fs => (cleanEntries now fs).map Json.obj
  | _ => .error .attributeError

/-- `load_project_cache` followed by the prune: a missing or unparseable file
loads as the empty dict (`rawCache = none`), any parsed document is passed to
`clean_old_cache_entries` unchecked. -/
def loadThenPrune (now : Int) (rawCache : Option Json) : Except PyErr Json :=
  clean_old_cache_entries now (rawCache.getD (.obj []))

/-- `decode_project_folder_name` (notify.py lines 237-250): require the
leading dash marker, split the remainder on dashes, rejoin with slashes. -/
def decode_project_folder_name (folder_name : String) : Option String :=
  match folder_name.toList with
  | '-' :: rest => some ⟨'/' :: List.intercalate ['/'] (rest.splitOn '-')⟩
  | _ => none

/-- Modelled from the spec for the round-trip property: the encoding of an
absolute path's segments as a project folder name, i.e. join the segments
with a single dash and prepend the leading dash marker. -/
def encodeProjectFolder (segs : List String) : String :=
  ⟨'-' :: List.intercalate ['-'] (segs.map String.toList)⟩

/-- The absolute path with the given segments. -/
def pathOfSegments (segs : List String) : String :=
  ⟨'/' :: List.intercalate ['/'] (segs.map String.toList)⟩

/-- The nonempty segments of a POSIX path string (the components of
`pathlib.Path(p).parts` apart from the root marker).  Paths are modelled as
already-resolved names. -/
def pathSegs (p : String) : List (List Char) :=
  (p.toList.splitOn '/').filter (· ≠ [])

/-- `is_cwd_under_project` (notify.py lines 253-260): the stored project path
is an ancestor of or equal to the working directory
(`project_path_obj in cwd_path.parents or cwd_path == project_path_obj`);
any exception, e.g. a non-string stored path, yields `False`. -/
def is_cwd_under_project (cwd : String) (project_path : Json) : Bool :=
  match project_path with
  | .str p => (pathSegs p).isPrefixOf (pathSegs cwd)
  | _ => false

/-- `common_parents` (notify.py line 357). -/
def common_parents : List String :=
  ["code", "projects", "dev", "work", "repos", "src", "Documents", "Desktop"]

/-- `pathlib.Path(p).parts` for an absolute path: the root marker followed by
the nonempty segments. -/
def pyParts (p : String) : List String :=
  "/" :: (pathSegs p).map (fun l => (⟨l⟩ : String))

/-- `pathlib.Path(p).name`: the last nonempty segment, `""` when there is
none. -/
def pyName (p : String) : String :=
  (((pathSegs p).getLast?).map (fun l => (⟨l⟩ : String))).getD ""

/-- The for-break loop of `resolve_project_name` (lines 361-376): the first
`parts[i+1:]` such that `parts[i]` is a common parent directory and the
remainder is nonempty. -/
def findRemainder : List String → Option (List String)
  | [] => none
  | p :: rest =>
    if p ∈ common_parents ∧ rest ≠ [] then some rest else findRemainder rest

/-- Deriving the short project name from the decoded absolute path
(notify.py lines 352-376). -/
def extract_project_name (actual_project_path : String) : String :=
  match findRemainder (pyParts actual_project_path) with
  | none => pyName actual_project_path
  | some [r] => r
  | some [a, b] => a ++ "-" ++ b
  | some rs => (rs.getLast?).getD (pyName actual_project_path)

/-- The environment `resolve_project_name` reads: the bytes of the cache file
(`none` when missing or unparseable), the clock, and the parent folder names
of the glob matches for this session's record file, in glob order. -/
structure ResolveEnv where
  rawCache : Option Json
  now : Int
  sessionFolders : List String

/-- The observable outcome of one `resolve_project_name` call: the returned
value (or the uncaught exception), whether the session-record glob lookup
ran, the document passed to `save_project_cache` (if called), and the
`(project_name, folder_name)` passed to `auto_add_project_to_replacements`
(if called). -/
structure ResolveOutcome where
  result : Except PyErr Json
  lookedUp : Bool
  savedCache : Option Json
  autoAdded : Option (String × String)

/-- Python dict assignment `d[k] = v`: update in place, or append a new
binding. -/
def setField : List (String × Json) → String → Json → List (String × Json)
  | [], k, v => [(k, v)]
  | (k0, v0) :: rest, k, v =>
    if k0 = k then (k0, v) :: rest else (k0, v0) :: setField rest k v

/-- The `try` block of `resolve_project_name` (lines 337-401): glob for the
session record, decode its parent folder name, derive the short name,
register it with auto-discovery, and persist a fresh cache entry; any miss
falls through to `"unknown"`.  Nothing in this block lets an exception
escape (the enclosing `except` logs and falls through). -/
def resolveLookup (env : ResolveEnv) (session_id : String)
    (cacheFields : List (String × Json)) : ResolveOutcome :=
  match env.sessionFolders with
  | [] => ⟨.ok (.str "unknown"), true, none, none⟩
  | folder_name :: _ =>
    match decode_project_folder_name folder_name with
    | none => ⟨.ok (.str "unknown"), true, none, none⟩
    | some actual_project_path =>
      let project_name := extract_project_name actual_project_path
      let entry : Json := .obj
        [("project_name", .str project_name),
         ("timestamp", .num env.now),
         ("project_path", .str actual_project_path),
         ("claude_folder", .str folder_name)]
      ⟨.ok (.str project_name), true,
       some (.obj (setField cacheFields session_id entry)),
       some (project_name, folder_name)⟩

/-- Python truthiness of the optional `cwd` argument. -/
def cwdTruthy : Option String → Bool
  | none => false
  | some c => c != ""

/-- `resolve_project_name` (notify.py lines 314-403).  The load-and-prune
step and the cached-entry inspection run outside the `try` block, so their
exceptions escape to the caller. -/
def resolve_project_name (env : ResolveEnv) (session_id : String)
    (cwd : Option String) : ResolveOutcome :=
  match loadThenPrune env.now env.rawCache with
  | .error e => ⟨.error e, false, none, none⟩
  | .ok (.obj cacheFields) =>
    match findField cacheFields session_id with
    | some entry =>
      match pyItem entry "project_name" with
      | .error e => ⟨.error e, false, none, none⟩
      | .ok cached_name =>
        if cwdTruthy cwd && hasKeyB entry "project_path" then
          match pyItem entry "project_path" with
          | .error e => ⟨.error e, false, none, none⟩
          | .ok cached_path =>
            if !is_cwd_under_project ((cwd).getD "") cached_path then
              resolveLookup env session_id cacheFields
            else ⟨.ok cached_name, false, none, none⟩
        else ⟨.ok cached_name, false, none, none⟩
    | none => resolveLookup env session_id cacheFields
  | .ok _ =>
    -- unreachable: `clean_old_cache_entries` only succeeds with a dict
    ⟨.error .attributeError, false, none, none⟩

/-- The fields of a tool-parameter record the classifier reads. -/
structure ToolParams where
  command : Option String := none
  file_path : Option String := none

/-- The fields of a hook event consumed after project resolution
(`handle_hook`, notify.py lines 572-757); a `none` field is absent from the
record. -/
structure Hook where
  event : Option String := none
  hook_event_name : Option String := none
  tool : Option String := none
  tool_name : Option String := none
  parameters : Option ToolParams := none
  tool_input : Option ToolParams := none
  response : Option Json := none
  tool_response : Option Json := none
  notification_type : Option String := none
  message : Option String := none

/-- `hook_data.get("event", hook_data.get("hook_event_name", "unknown"))`. -/
def hookTypeOf (h : Hook) : String :=
  (h.event).getD ((h.hook_event_name).getD "unknown")

/-- `hook_data.get("tool", hook_data.get("tool_name", "unknown"))`. -/
def toolNameOf (h : Hook) : String :=
  (h.tool).getD ((h.tool_name).getD "unknown")

/-- `hook_data.get("parameters", hook_data.get("tool_input", \x7b\x7d))`. -/
def paramsOf (h : Hook) : ToolParams :=
  (h.parameters).getD ((h.tool_input).getD {})

/-- `....get("command", "")`. -/
def commandOf (h : Hook) : String := ((paramsOf h).command).getD ""

/-- `....get("file_path", "")`. -/
def filePathOf (h : Hook) : String := ((paramsOf h).file_path).getD ""

/-- `hook_data.get("response", hook_data.get("tool_response", \x7b\x7d))`. -/
def responseOf (h : Hook) : Json :=
  (h.response).getD ((h.tool_response).getD (.obj []))

/-- What the classification half of `handle_hook` decides: the early
`return` for safe shell commands, or the `(event_type, message, custom_tts)`
triple reaching the notification step (each component `None` when never
assigned). -/
inductive ClassifyResult where
  | earlyReturn
  | outcome (event_type : Option String) (message : Option String)
      (custom_tts : Option String)
  deriving DecidableEq

/-- `safe_prefixes` (notify.py line 626). -/
def safe_prefixes : List String :=
  ["echo", "pwd", "ls", "cat", "head", "tail", "grep", "find", "which"]

/-- `dangerous_prefixes` (notify.py line 631). -/
def dangerous_prefixes : List String :=
  ["rm", "mv", "cp", "sudo", "chmod", "chown", ">", "curl", "wget"]

/-- `any(command.strip().startswith(p) for p in safe_prefixes)`. -/
def isSafeCommand (command : String) : Bool :=
  safe_prefixes.any (fun p => p.toList.isPrefixOf (stripL command.toList))

/-- `any(p in command for p in dangerous_prefixes)`. -/
def isDangerousCommand (command : String) : Bool :=
  dangerous_prefixes.any (fun p => strContains command p)

/-- The target extraction of the Bash branch (notify.py lines 640-645):
the file name of the first argument, or of the last argument when the first
is a flag and a further argument exists. -/
def bashTarget (cmd_parts : List String) : Option String :=
  match cmd_parts with
  | _ :: second :: restAfter =>
    let t0 := if strContains second "/" then pyName second else second
    if ['-'].isPrefixOf t0.toList then
      (restAfter.getLast?).map pyName
    else some t0
  | _ => none

/-- The extracted target normalised for Python truthiness: every later use
is guarded by `if target`, under which the empty string and `None`
coincide. -/
def bashTargetTruthy (cmd_parts : List String) : Option String :=
  match bashTarget cmd_parts with
  | some t => if t != "" then some t else none
  | none => none

/-- The TTS description of a dangerous shell command
(notify.py lines 648-669). -/
def bashAudioDesc (command cmd_summary : String) (target : Option String) :
    String :=
  let withT (pre fallback : String) : String :=
    match target with
    | some t => pre ++ t
    | none => fallback
  if cmd_summary == "rm" && strContains command "-rf" then
    withT "force removing " "force removing files"
  else if cmd_summary == "rm" && strContains command "-r" then
    withT "removing directory " "removing directory"
  else if cmd_summary == "rm" then withT "removing " "removing files"
  else if cmd_summary == "mv" then withT "moving " "moving files"
  else if cmd_summary == "cp" then withT "copying " "copying files"
  else if cmd_summary == "sudo" then "running with admin privileges"
  else if cmd_summary == "chmod" then
    withT "changing permissions on " "changing permissions"
  else if cmd_summary == "chown" then
    withT "changing ownership of " "changing ownership"
  else if cmd_summary == "curl" then "downloading from web"
  else if cmd_summary == "wget" then "downloading file"
  else "running " ++ cmd_summary

/-- A display message carrying the bracketed project prefix
(the `f"[\x7bdisplay_project_name\x7d] ..."` pattern). -/
def pmsg (dpn rest : String) : String := "[" ++ dpn ++ "] " ++ rest

/-- The display message of the Bash branch (notify.py lines 672-675). -/
def bashMessage (dpn cmd_summary : String) (target : Option String) : String :=
  match target with
  | some t => pmsg dpn ("Running " ++ cmd_summary ++ " on " ++ t)
  | none => pmsg dpn ("Running " ++ cmd_summary)

/-- The notification built for a dangerous Bash command
(notify.py lines 633-678). -/
def bashOutcome (dpn command : String) : ClassifyResult :=
  let cmd_parts := (pySplit command.toList).map (fun l => (⟨l⟩ : String))
  let cmd_summary := (cmd_parts.head?).getD "command"
  let target := bashTargetTruthy cmd_parts
  let audio_desc := bashAudioDesc command cmd_summary target
  .outcome (some "tool_activity") (some (bashMessage dpn cmd_summary target))
    (some (dpn ++ ", " ++ audio_desc))

/-- The sensitive-location markers for file-editing tools
(notify.py line 685). -/
def sensitiveMarkers : List String := ["/etc/", "/usr/", ".env", "config", "secret"]

/-- Does a tool response indicate an error
(`tool_response.get("type") == "error" or "error" in tool_response`)? -/
def responseIndicatesError (resp : Json) : Bool :=
  match resp with
  | .obj fs =>
    (match findField fs "type" with
     | some (.str s) => s == "error"
     | _ => false) || (findField fs "error").isSome
  | _ => false

/-- `tool_response.get("error", tool_response.get("message", "Unknown error"))`
(only reached on a dict response). -/
def responseErrorMsg (resp : Json) : Json :=
  match resp with
  | .obj fs =>
    (findField fs "error").getD ((findField fs "message").getD (.str "Unknown error"))
  | _ => .str "Unknown error"

/-- Word characters of the regex class `\w` (ASCII). -/
def isWordChar (c : Char) : Bool :=
  ('a' ≤ c && c ≤ 'z') || ('A' ≤ c && c ≤ 'Z') || ('0' ≤ c && c ≤ '9') || c == '_'

/-- Models `re.search(r"permission to use (\w+)", raw_message)`: the word run
after the leftmost occurrence of the literal prefix that is followed by at
least one word character. -/
def findPermissionTool : List Char → Option String
  | [] => none
  | c :: rest =>
    if ("permission to use ".toList).isPrefixOf (c :: rest) then
      let w := ((c :: rest).drop "permission to use ".length).takeWhile isWordChar
      if w ≠ [] then some (⟨w⟩ : String) else findPermissionTool rest
    else findPermissionTool rest

/-- The permission-request arm of the Notification branch
(notify.py lines 745-754). -/
def permissionOutcome (dpn raw_message : String) : ClassifyResult :=
  match findPermissionTool raw_message.toList with
  | some tool_requested =>
    .outcome (some "input_needed")
      (some (pmsg dpn ("Permission needed for " ++ tool_requested)))
      (some (dpn ++ ", " ++ ("needs permission for " ++ tool_requested)))
  | none =>
    .outcome (some "input_needed") (some (pmsg dpn raw_message))
      (some (dpn ++ ", " ++ raw_message))

/-- The classification half of `handle_hook` (notify.py lines 616-757),
taking the already alias-applied project name computed upstream
(lines 572-612). -/
def classify (dpn : String) (h : Hook) : ClassifyResult :=
  let ht := hookTypeOf h
  if ht == "PreToolUse" then
    let tn := toolNameOf h
    if tn == "Bash" then
      let command := commandOf h
      if isSafeCommand command then .earlyReturn
      else if isDangerousCommand command then bashOutcome dpn command
      else .outcome none none none
    else if tn == "Write" || tn == "MultiEdit" || tn == "Edit" then
      let fp := filePathOf h
      if sensitiveMarkers.any (fun m => strContains fp m) then
        let file_name := pyName fp
        let action_desc :=
          if tn == "Write" then "writing"
          else if tn == "MultiEdit" then "multi-editing"
          else "editing"
        .outcome (some "tool_activity")
          (some (pmsg dpn (pyCapitalize action_desc ++ " " ++ file_name)))
          (some (dpn ++ ", " ++ (action_desc ++ " " ++ file_name)))
      else .outcome none none none
    else .outcome none none none
  else if ht == "PostToolUse" then
    let resp := responseOf h
    let tn := toolNameOf h
    if responseIndicatesError resp then
      .outcome (some "error")
        (some (pmsg dpn ("Error in " ++ tn ++ ": " ++
          (⟨((pyStr (responseErrorMsg resp)).toList).take 100⟩ : String))))
        (some (dpn ++ ", " ++ (tn ++ " failed")))
    else .outcome none none none
  else if ht == "Stop" then
    .outcome (some "execution_complete") (some (pmsg dpn "Task complete"))
      (some (dpn ++ ", " ++ "task completed successfully"))
  else if ht == "SubagentStop" then
    .outcome (some "subagent_done") (some (pmsg dpn "Subagent finished"))
      (some (dpn ++ ", " ++ "sub agent finished"))
  else if ht == "PreCompact" then
    .outcome (some "compaction") (some "Context compaction starting") none
  else if ht == "Notification" then
    let notif_type := (h.notification_type).getD ""
    let raw_message := (h.message).getD ""
    if strContains (pyLower notif_type) "error" then
      .outcome (some "error") (some ((h.message).getD "An error occurred")) none
    else if strContains raw_message "permission to use" then
      permissionOutcome dpn raw_message
    else
      .outcome (some "input_needed") (some (pmsg dpn "Input needed"))
        (some (dpn ++ ", " ++ "input needed"))
  else .outcome none none none

/-- Python truthiness of an optional string. -/
def optStrTruthy : Option String → Bool
  | none => false
  | some s => s != ""

/-- Does `handle_hook` reach its notification branch
(`if event_type and message`, line 760)? -/
def notificationProduced : ClassifyResult → Bool
  | .earlyReturn => false
  | .outcome et msg _ => optStrTruthy et && optStrTruthy msg

/-- The event category of a classification. -/
def eventTypeOf : ClassifyResult → Option String
  | .earlyReturn => none
  | .outcome et _ _ => et

/-- The text after the first occurrence of `sep`
(`s.split(sep, 1)[-1]` when `sep` occurs). -/
def afterFirst (sep : List Char) : List Char → List Char
  | [] => []
  | c :: rest =>
    if sep.isPrefixOf (c :: rest) then (c :: rest).drop sep.length
    else afterFirst sep rest

/-- `message.split('] ', 1)[-1] if '] ' in message else message`
(notify.py line 764). -/
def cleanMessage (m : String) : String :=
  if strContains m "] " then (⟨afterFirst ("] ".toList) m.toList⟩ : String) else m

/-- The collaborator calls made by the dispatch step: the `(title, message)`
passed to the desktop-notification backend, and the
`(event_type, custom_tts or "")` passed to `get_notification_sound`. -/
structure DispatchCalls where
  notified : Option (String × String)
  soundRequest : Option (String × String)
  deriving DecidableEq

/-- The dispatch step of `handle_hook` (notify.py lines 759-778). -/
def dispatchCalls (dpn : String) (r : ClassifyResult) : DispatchCalls :=
  match r with
  | .earlyReturn => ⟨none, none⟩
  | .outcome et msg tts =>
    if optStrTruthy et && optStrTruthy msg then
      ⟨some (dpn, cleanMessage ((msg).getD "")),
       some ((et).getD "", (tts).getD "")⟩
    else ⟨none, none⟩

/-- The injected TTS backend (spec §6): the cache-key material for a text,
the file extension, and whether synthesis succeeds on a text (success means
the file appears at the requested output path). -/
structure TTSBackend where
  cache_key : String → String
  file_extension : String
  generateOk : String → Bool

/-- `default_texts` (notify.py lines 535-543). -/
def default_texts : List (String × String) :=
  [("tool_activity", "Tool activity"),
   ("execution_complete", "Task complete"),
   ("subagent_done", "Sub agent done"),
   ("error", "Error occurred"),
   ("tool_blocked", "Tool blocked"),
   ("compaction", "Compacting context"),
   ("input_needed", "Input needed")]

/-- `custom_text if custom_text else default_texts.get(event_type, "Claude notification")`. -/
def textToSpeak (event_type custom_text : String) : String :=
  if custom_text != "" then custom_text
  else
    match default_texts.find? (fun p => p.1 == event_type) with
    | some p => p.2
    | none => "Claude notification"

/-- `f"\x7bTTS_PROVIDER\x7d_\x7bevent_type\x7d_\x7bcache_key\x7d\x7bfile_extension\x7d"`. -/
def soundFileName (providerName : String) (b : TTSBackend)
    (event_type text : String) : String :=
  providerName ++ "_" ++ event_type ++ "_" ++ b.cache_key text ++ b.file_extension

/-- The outcome of one `get_notification_sound` call: the returned path,
the sound-cache directory afterwards, and whether `generate` was invoked. -/
structure SoundResult where
  resultPath : Option String
  files : List String
  generateCalled : Bool

/-- `get_notification_sound` (notify.py lines 528-570) over an explicit
sound-cache directory listing; a raised or failed `generate` leaves no file
and returns `None`. -/
def get_notification_sound (useTTS : Bool) (providerName : String)
    (backend : Option TTSBackend) (files : List String)
    (event_type custom_text : String) : SoundResult :=
  if !useTTS then ⟨none, files, false⟩
  else
    match backend with
    | none => ⟨none, files, false⟩
    | some b =>
      let text := textToSpeak event_type custom_text
      let sound_file := soundFileName providerName b event_type text
      if files.contains sound_file then ⟨some sound_file, files, false⟩
      else if b.generateOk text then ⟨some sound_file, sound_file :: files, true⟩
      else ⟨none, files, true⟩

/-- A backend whose synthesis always succeeds, used to instantiate
hypotheses at concrete inputs. -/
def alwaysOkBackend : TTSBackend :=
  ⟨fun _ => "cafebabe00000000", ".mp3", fun _ => true⟩

/-- A concrete environment with one live cache entry for session `"sess"`. -/
def envHit : ResolveEnv :=
  ⟨some (.obj [("sess", .obj
      [("project_name", .str "proj"),
       ("timestamp", .num 1000),
       ("project_path", .str "/a/b")])]),
   1000, ["-x-y"]⟩

/-- A concrete prune time. -/
def now9 : Int := 1000000

/-- A concrete cache document with one stale and one fresh entry. -/
def doc9 : Json :=
  .obj [("a", .obj [("timestamp", .num 0)]),
        ("b", .obj [("timestamp", .num 999000)])]

/-! ### Helper lemmas -/

theorem pmsg_starts (dpn rest : String) :
    ("[" ++ dpn ++ "] ").toList <+: (pmsg dpn rest).toList := by
  simp only [pmsg, String.toList, String.data_append]
  exact List.prefix_append _ _

theorem pmsg_infix (dpn rest : String) :
    rest.toList <:+: (pmsg dpn rest).toList := by
  simp only [pmsg, String.toList, String.data_append]
  exact (List.suffix_append _ _).isInfix

theorem pmsg_ne_empty (dpn rest : String) : pmsg dpn rest ≠ "" := by
  intro hc
  have := congrArg String.data hc
  simp [pmsg] at this

theorem strSuffixInfix (a b : String) : b.toList <:+: (a ++ b).toList := by
  simp only [String.toList, String.data_append]
  exact (List.suffix_append _ _).isInfix

theorem bashMessage_starts (dpn cs : String) (t : Option String) :
    ("[" ++ dpn ++ "] ").toList <+: (bashMessage dpn cs t).toList := by
  cases t <;> exact pmsg_starts _ _

theorem bashMessage_ne_empty (dpn cs : String) (t : Option String) :
    bashMessage dpn cs t ≠ "" := by
  cases t <;> exact pmsg_ne_empty _ _

theorem permissionOutcome_starts (dpn raw : String) (et : Option String)
    (msg : String) (tts : Option String)
    (hcls : permissionOutcome dpn raw = .outcome et (some msg) tts) :
    ("[" ++ dpn ++ "] ").toList <+: msg.toList := by
  unfold permissionOutcome at hcls
  cases hfp : findPermissionTool raw.toList <;> rw [hfp] at hcls <;>
    simp only [ClassifyResult.outcome.injEq, Option.some.injEq] at hcls <;>
    rw [← hcls.2.1] <;> exact pmsg_starts _ _

theorem resolveLookup_lookedUp (env : ResolveEnv) (sid : String)
    (cf : List (String × Json)) : (resolveLookup env sid cf).lookedUp = true := by
  unfold resolveLookup
  rcases hsf : env.sessionFolders with _ | ⟨f, rest⟩
  · rfl
  · rcases hdec : decode_project_folder_name f with _ | p <;> simp [hdec]

theorem notifProduced_bashOutcome (dpn c : String) :
    notificationProduced (bashOutcome dpn c) = true := by
  simp [bashOutcome, notificationProduced, optStrTruthy, bne_iff_ne,
    bashMessage_ne_empty]

theorem classify_bashHook (dpn c : String) :
    classify dpn
      { event := some "PreToolUse", tool := some "Bash",
        parameters := some { command := some c } } =
      if isSafeCommand c then .earlyReturn
      else if isDangerousCommand c then bashOutcome dpn c
      else .outcome none none none := rfl

theorem cleanEntries_ok (now : Int) (fs outFs : List (String × Json))
    (h : cleanEntries now fs = .ok outFs) :
    outFs = fs.filter (fun pr => entryLive now pr.2) ∧
    ∀ pr ∈ outFs, ∃ ts, entryTimestamp pr.2 = .ok ts ∧
      now - ts < expirySeconds := by
  induction fs generalizing outFs with
  | nil =>
    simp only [cleanEntries] at h
    cases h
    simp
  | cons hd tl ih =>
    obtain ⟨sid, data⟩ := hd
    simp only [cleanEntries] at h
    cases hts : entryTimestamp data with
    | error e => simp [hts] at h
    | ok ts =>
      cases htl : cleanEntries now tl with
      | error e => simp [hts, htl] at h
      | ok tail =>
        simp only [hts, htl] at h
        obtain ⟨hfilter, hlive⟩ := ih tail htl
        by_cases hfresh : now - ts < expirySeconds
        · rw [if_pos hfresh] at h
          simp only [Except.ok.injEq] at h
          subst h
          constructor
          · simp [List.filter, entryLive, hts, hfresh, hfilter]
          · intro pr hpr
            rcases List.mem_cons.mp hpr with hpr | hpr
            · subst hpr; exact ⟨ts, hts, hfresh⟩
            · exact hlive pr hpr
        · rw [if_neg hfresh] at h
          simp only [Except.ok.injEq] at h
          subst h
          constructor
          · simp [List.filter, entryLive, hts, hfresh, hfilter]
          · exact hlive

/-! ### Claim theorems -/

/-- C1: for a session id whose entry survives the prune (a live entry), the
cached name is returned without the session-record lookup whenever `cwd` is
absent or the stored project path is an ancestor of (or equal to) the
resolved cwd; and when a cwd is supplied that is not under the stored
project path, the entry is not trusted and the session-record lookup
recomputes the name. -/
theorem c1_cache_hit_validation (env : ResolveEnv) (sid : String)
    (cwd : Option String) (cfields efields : List (String × Json))
    (nameJ : Json)
    (hclean : loadThenPrune env.now env.rawCache = .ok (.obj cfields))
    (hsid : findField cfields sid = some (.obj efields))
    (hname : findField efields "project_name" = some nameJ) :
    (cwd = none →
      (resolve_project_name env sid cwd).result = .ok nameJ ∧
      (resolve_project_name env sid cwd).lookedUp = false)
    ∧ (∀ c ppJ, cwd = some c → c ≠ "" →
        findField efields "project_path" = some ppJ →
        (is_cwd_under_project c ppJ = true →
          (resolve_project_name env sid cwd).result = .ok nameJ ∧
          (resolve_project_name env sid cwd).lookedUp = false)
        ∧ (is_cwd_under_project c ppJ = false →
          (resolve_project_name env sid cwd).lookedUp = true)) := by
  constructor
  · intro hcwd
    subst hcwd
    simp [resolve_project_name, hclean, hsid, pyItem, hname, cwdTruthy]
  · intro c ppJ hc hcne hpp
    subst hc
    constructor
    · intro hunder
      simp [resolve_project_name, hclean, hsid, pyItem, hname, cwdTruthy,
        bne_iff_ne, hcne, hasKeyB, hpp, hunder]
    · intro hnot
      simp [resolve_project_name, hclean, hsid, pyItem, hname, cwdTruthy,
        bne_iff_ne, hcne, hasKeyB, hpp, hnot, resolveLookup_lookedUp]

/-- Witness for C1 on a concrete live cache entry: a hit without cwd, a hit
with a cwd under the stored path, and a recompute with a cwd outside it. -/
theorem c1_cache_hit_validation_witness :
    ((resolve_project_name envHit "sess" none).result = .ok (.str "proj") ∧
     (resolve_project_name envHit "sess" none).lookedUp = false) ∧
    ((resolve_project_name envHit "sess" (some "/a/b/c")).result =
        .ok (.str "proj") ∧
     (resolve_project_name envHit "sess" (some "/a/b/c")).lookedUp = false) ∧
    (resolve_project_name envHit "sess" (some "/x")).lookedUp = true := by
  refine ⟨?_, ?_, ?_⟩
  · exact (c1_cache_hit_validation envHit "sess" none _ _ _ rfl rfl rfl).1 rfl
  · exact ((c1_cache_hit_validation envHit "sess" (some "/a/b/c") _ _ _
      rfl rfl rfl).2 "/a/b/c" (.str "/a/b") rfl (by decide) rfl).1 (by rfl)
  · exact ((c1_cache_hit_validation envHit "sess" (some "/x") _ _ _
      rfl rfl rfl).2 "/x" (.str "/a/b") rfl (by decide) rfl).2 (by rfl)

/-- C2 counterexample: the Pre-compact display message is not prefixed with
the bracketed project name. -/
theorem c2_counterexample :
    classify "myproj" { event := some "PreCompact" } =
      .outcome (some "compaction") (some "Context compaction starting") none
    ∧ ¬ (("[" ++ "myproj" ++ "] ").toList <+:
        ("Context compaction starting").toList) :=
  ⟨rfl, by decide⟩

/-- C2 amended: every display message emitted by the classifier is prefixed
with the alias-applied project name in square brackets, except the
Pre-compact message and the error branch of Notification (whose messages
are emitted unprefixed). -/
theorem c2_message_prefixed (dpn : String) (h : Hook) (et : Option String)
    (msg : String) (tts : Option String)
    (hcls : classify dpn h = .outcome et (some msg) tts)
    (hpc : hookTypeOf h ≠ "PreCompact")
    (hne : ¬(hookTypeOf h = "Notification" ∧
        strContains (pyLower ((h.notification_type).getD "")) "error" = true)) :
    ("[" ++ dpn ++ "] ").toList <+: msg.toList := by
  simp only [classify, bashOutcome] at hcls
  split at hcls
  all_goals (try split at hcls)
  all_goals (try split at hcls)
  all_goals (try split at hcls)
  all_goals (try split at hcls)
  all_goals (try split at hcls)
  all_goals (try split at hcls)
  all_goals (try split at hcls)
  all_goals (first
    | exact permissionOutcome_starts _ _ _ _ _ hcls
    | (simp only [ClassifyResult.outcome.injEq, Option.some.injEq,
        reduceCtorEq] at hcls
       first
        | exact hcls.elim
        | exact hcls.2.1.elim
        | (rw [← hcls.2.1]
           first
            | exact bashMessage_starts _ _ _
            | exact pmsg_starts _ _))
    | (exfalso; apply hpc; simp_all [beq_iff_eq]; done))

/-- Witness for the amended C2 at a Stop event. -/
theorem c2_message_prefixed_witness :
    ("[" ++ "p" ++ "] ").toList <+: (pmsg "p" "Task complete").toList :=
  c2_message_prefixed "p" { event := some "Stop" }
    (some "execution_complete") (pmsg "p" "Task complete")
    (some ("p" ++ ", " ++ "task completed successfully"))
    rfl (by decide) (by decide)

/-- C3: for a Pre-tool-use Bash event, a command starting (after stripping)
with a safe prefix produces no notification; otherwise a notification is
produced if and only if the command contains a dangerous marker, and it
carries category `tool_activity`. -/
theorem c3_bash_filtering (dpn c : String) :
    (isSafeCommand c = true →
      notificationProduced (classify dpn
        { event := some "PreToolUse", tool := some "Bash",
          parameters := some { command := some c } }) = false)
    ∧ (isSafeCommand c = false →
        ((notificationProduced (classify dpn
            { event := some "PreToolUse", tool := some "Bash",
              parameters := some { command := some c } }) = true) ↔
          isDangerousCommand c = true)
        ∧ (isDangerousCommand c = true →
          eventTypeOf (classify dpn
            { event := some "PreToolUse", tool := some "Bash",
              parameters := some { command := some c } }) =
            some "tool_activity")) := by
  constructor
  · intro hsafe
    simp [classify_bashHook, hsafe, notificationProduced]
  · intro hsafe
    constructor
    · constructor
      · intro hprod
        by_contra hdang
        simp only [Bool.not_eq_true] at hdang
        simp [classify_bashHook, hsafe, hdang, notificationProduced,
          optStrTruthy] at hprod
      · intro hdang
        simp [classify_bashHook, hsafe, hdang, notifProduced_bashOutcome]
    · intro hdang
      simp [classify_bashHook, hsafe, hdang, bashOutcome, eventTypeOf]

/-- Witness for C3: `"echo hi"` is skipped, `"true"` contains no marker and
is skipped, `"rm x"` notifies with category `tool_activity`. -/
theorem c3_bash_filtering_witness :
    notificationProduced (classify "p"
      { event := some "PreToolUse", tool := some "Bash",
        parameters := some { command := some "echo hi" } }) = false ∧
    ((notificationProduced (classify "p"
      { event := some "PreToolUse", tool := some "Bash",
        parameters := some { command := some "true" } }) = true) ↔
      isDangerousCommand "true" = true) ∧
    (notificationProduced (classify "p"
      { event := some "PreToolUse", tool := some "Bash",
        parameters := some { command := some "rm x" } }) = true) ∧
    eventTypeOf (classify "p"
      { event := some "PreToolUse", tool := some "Bash",
        parameters := some { command := some "rm x" } }) =
      some "tool_activity" := by
  refine ⟨?_, ?_, ?_, ?_⟩
  · exact (c3_bash_filtering "p" "echo hi").1 (by decide)
  · exact ((c3_bash_filtering "p" "true").2 (by decide)).1
  · exact ((c3_bash_filtering "p" "rm x").2 (by decide)).1.mpr (by decide)
  · exact ((c3_bash_filtering "p" "rm x").2 (by decide)).2 (by decide)

/-- C4 counterexample: for a Pre-compact event the dispatcher does request
audio resolution (with empty custom text), and with an available backend a
sound file is resolved (synthesis of the default text runs), contradicting
"no audio is resolved or played". -/
theorem c4_counterexample :
    (dispatchCalls "myproj"
      (classify "myproj" { event := some "PreCompact" })).soundRequest =
      some ("compaction", "")
    ∧ (get_notification_sound true "kokoro" (some alwaysOkBackend) []
        "compaction" "").resultPath =
        some "kokoro_compaction_cafebabe00000000.mp3"
    ∧ (get_notification_sound true "kokoro" (some alwaysOkBackend) []
        "compaction" "").generateCalled = true :=
  ⟨rfl, rfl, rfl⟩

/-- C4 amended: a Pre-compact event always classifies as category
`compaction` with no TTS text, and the dispatcher both shows the desktop
notification and requests audio resolution for it (event type `compaction`
with empty custom text, which falls back to the default text); the event is
not visual-only. -/
theorem c4_precompact (dpn : String) (h : Hook)
    (hht : hookTypeOf h = "PreCompact") :
    classify dpn h =
      .outcome (some "compaction") (some "Context compaction starting") none
    ∧ dispatchCalls dpn (classify dpn h) =
        ⟨some (dpn, "Context compaction starting"), some ("compaction", "")⟩
    ∧ textToSpeak "compaction" "" = "Compacting context" := by
  have hcls : classify dpn h =
      .outcome (some "compaction") (some "Context compaction starting") none := by
    simp [classify, hht]
  refine ⟨hcls, ?_, rfl⟩
  rw [hcls]
  rfl

/-- Witness for the amended C4. -/
theorem c4_precompact_witness :
    classify "p" { event := some "PreCompact" } =
      .outcome (some "compaction") (some "Context compaction starting") none
    ∧ dispatchCalls "p" (classify "p" { event := some "PreCompact" }) =
        ⟨some ("p", "Context compaction starting"), some ("compaction", "")⟩
    ∧ textToSpeak "compaction" "" = "Compacting context" :=
  c4_precompact "p" { event := some "PreCompact" } rfl

/-- C5: with a backend whose synthesis succeeds on the spoken text, two
`get_notification_sound` calls with the same category and custom text return
the same file path, the path is the deterministic cache name when TTS is
enabled, and `generate` is not invoked by both calls. -/
theorem c5_sound_cache_idempotent (useTTS : Bool) (pname : String)
    (b : TTSBackend) (files : List String) (et ct : String)
    (hgen : b.generateOk (textToSpeak et ct) = true) :
    (get_notification_sound useTTS pname (some b) files et ct).resultPath =
      (get_notification_sound useTTS pname (some b)
        (get_notification_sound useTTS pname (some b) files et ct).files
        et ct).resultPath
    ∧ (useTTS = true →
        (get_notification_sound useTTS pname (some b) files et ct).resultPath =
          some (soundFileName pname b et (textToSpeak et ct)))
    ∧ ¬((get_notification_sound useTTS pname (some b) files et ct).generateCalled = true
        ∧ (get_notification_sound useTTS pname (some b)
            (get_notification_sound useTTS pname (some b) files et ct).files
            et ct).generateCalled = true) := by
  cases useTTS
  · simp [get_notification_sound]
  · by_cases hmem : soundFileName pname b et (textToSpeak et ct) ∈ files
    · simp [get_notification_sound, hmem]
    · simp [get_notification_sound, hmem, hgen]

/-- Witness for C5 with a concrete always-succeeding backend. -/
theorem c5_sound_cache_idempotent_witness :
    (get_notification_sound true "kokoro" (some alwaysOkBackend) []
        "execution_complete" "hello").resultPath =
      (get_notification_sound true "kokoro" (some alwaysOkBackend)
        (get_notification_sound true "kokoro" (some alwaysOkBackend) []
          "execution_complete" "hello").files
        "execution_complete" "hello").resultPath
    ∧ (true = true →
        (get_notification_sound true "kokoro" (some alwaysOkBackend) []
          "execution_complete" "hello").resultPath =
          some (soundFileName "kokoro" alwaysOkBackend "execution_complete"
            (textToSpeak "execution_complete" "hello")))
    ∧ ¬((get_notification_sound true "kokoro" (some alwaysOkBackend) []
          "execution_complete" "hello").generateCalled = true
        ∧ (get_notification_sound true "kokoro" (some alwaysOkBackend)
            (get_notification_sound true "kokoro" (some alwaysOkBackend) []
              "execution_complete" "hello").files
            "execution_complete" "hello").generateCalled = true) :=
  c5_sound_cache_idempotent true "kokoro" alwaysOkBackend []
    "execution_complete" "hello" rfl

/-- C6 counterexample: a parseable cache document whose entry for the
session lacks `project_name` makes `resolve_project_name` raise a
`KeyError` to its caller (`cache[session_id]['project_name']` runs outside
the `try` block). -/
theorem c6_counterexample :
    (resolve_project_name
      ⟨some (.obj [("s", .obj [("timestamp", .num 0)])]), 0, []⟩
      "s" none).result = .error .keyError := rfl

/-- C6 amended: when the cache document is missing or unparseable (the load
failure that degrades to the empty cache), `resolve_project_name` never
raises: it returns a string, and `"unknown"` when no session record is
found. -/
theorem c6_no_raise_on_load_failure (env : ResolveEnv) (sid : String)
    (cwd : Option String) (hraw : env.rawCache = none) :
    ∃ s : String, (resolve_project_name env sid cwd).result = .ok (.str s) ∧
      (env.sessionFolders = [] → s = "unknown") := by
  simp only [resolve_project_name, hraw, loadThenPrune, Option.getD_none,
    clean_old_cache_entries, cleanEntries, Except.map, findField]
  rcases hsf : env.sessionFolders with _ | ⟨f, rest⟩
  · exact ⟨"unknown", by simp [resolveLookup, hsf], fun _ => rfl⟩
  · rcases hdec : decode_project_folder_name f with _ | p
    · exact ⟨"unknown", by simp [resolveLookup, hsf, hdec], by simp [hsf]⟩
    · exact ⟨extract_project_name p, by simp [resolveLookup, hsf, hdec],
        by simp [hsf]⟩

/-- Witness for the amended C6. -/
theorem c6_no_raise_on_load_failure_witness :
    ∃ s : String,
      (resolve_project_name ⟨none, 0, []⟩ "sid" none).result = .ok (.str s) ∧
      ((⟨none, 0, []⟩ : ResolveEnv).sessionFolders = [] → s = "unknown") :=
  c6_no_raise_on_load_failure ⟨none, 0, []⟩ "sid" none rfl

/-- C7: the command `"rm important.txt"` classifies as `tool_activity` with
a display message containing `"Running rm on important.txt"` and TTS text
containing `"removing important.txt"`. -/
theorem c7_rm_important (dpn : String) :
    classify dpn
      { event := some "PreToolUse", tool := some "Bash",
        parameters := some { command := some "rm important.txt" } } =
      .outcome (some "tool_activity")
        (some (pmsg dpn "Running rm on important.txt"))
        (some (dpn ++ ", " ++ "removing important.txt"))
    ∧ ("Running rm on important.txt").toList <:+:
        (pmsg dpn "Running rm on important.txt").toList
    ∧ ("removing important.txt").toList <:+:
        (dpn ++ ", " ++ "removing important.txt").toList :=
  ⟨rfl, pmsg_infix dpn "Running rm on important.txt",
    strSuffixInfix (dpn ++ ", ") "removing important.txt"⟩

/-- C8: encoding an absolute path built from nonempty dash-free segments and
decoding it recovers the path, and a folder name lacking the leading dash
marker fails to decode. -/
theorem c8_folder_roundtrip :
    (∀ segs : List String, segs ≠ [] →
      (∀ s ∈ segs, s ≠ "" ∧ '-' ∉ s.toList) →
      decode_project_folder_name (encodeProjectFolder segs) =
        some (pathOfSegments segs))
    ∧ (∀ fn : String, fn.toList.head? ≠ some '-' →
        decode_project_folder_name fn = none) := by
  constructor
  · intro segs hne hsegs
    show decode_project_folder_name ⟨'-' :: _⟩ = _
    unfold decode_project_folder_name
    simp only [String.toList]
    rw [List.splitOn_intercalate]
    · rfl
    · intro l hl
      rw [List.mem_map] at hl
      obtain ⟨s, hs, rfl⟩ := hl
      exact (hsegs s hs).2
    · simp [hne]
  · intro fn hfn
    unfold decode_project_folder_name
    rcases hl : fn.toList with _ | ⟨c, rest⟩
    · rfl
    · rw [hl] at hfn
      simp only [List.head?] at hfn
      have : c ≠ '-' := fun hc => hfn (by rw [hc])
      simp [this]

/-- Witness for C8 at a concrete path and a markerless folder name. -/
theorem c8_folder_roundtrip_witness :
    decode_project_folder_name (encodeProjectFolder ["Users", "helmi", "zero"]) =
      some (pathOfSegments ["Users", "helmi", "zero"])
    ∧ decode_project_folder_name "Users" = none :=
  ⟨c8_folder_roundtrip.1 ["Users", "helmi", "zero"] (by decide) (by decide),
   c8_folder_roundtrip.2 "Users" (by decide)⟩

/-- C9: after a successful load-then-prune, every remaining entry is
strictly younger than 7 days, and the surviving entries are exactly the
live entries of the loaded document, unchanged and in order. -/
theorem c9_prune_invariant (now : Int) (rawCache : Option Json)
    (outFs : List (String × Json))
    (h : loadThenPrune now rawCache = .ok (.obj outFs)) :
    (∀ pr ∈ outFs, ∃ ts, entryTimestamp pr.2 = .ok ts ∧
      now - ts < 7 * 24 * 60 * 60)
    ∧ ∀ fs, rawCache.getD (.obj []) = .obj fs →
        outFs = fs.filter (fun pr => entryLive now pr.2) := by
  unfold loadThenPrune clean_old_cache_entries at h
  cases hdoc : rawCache.getD (.obj []) with
  | obj fs =>
    rw [hdoc] at h
    have h2 : Except.map Json.obj (cleanEntries now fs) =
        Except.ok (Json.obj outFs) := h
    cases hce : cleanEntries now fs with
    | error e => rw [hce] at h2; exact Except.noConfusion h2
    | ok l =>
      rw [hce] at h2
      simp only [Except.map, Except.ok.injEq, Json.obj.injEq] at h2
      subst h2
      obtain ⟨hfilter, hlive⟩ := cleanEntries_ok now fs l hce
      refine ⟨hlive, ?_⟩
      intro fs2 hfs2
      cases hfs2
      exact hfilter
  | null =>
    rw [hdoc] at h
    exact Except.noConfusion h
  | bool b =>
    rw [hdoc] at h
    exact Except.noConfusion h
  | num n =>
    rw [hdoc] at h
    exact Except.noConfusion h
  | str s =>
    rw [hdoc] at h
    exact Except.noConfusion h
  | arr es =>
    rw [hdoc] at h
    exact Except.noConfusion h

/-- Witness for C9: a stale entry is pruned, a fresh one survives. -/
theorem c9_prune_invariant_witness :
    (∀ pr ∈ [(("b" : String), Json.obj [("timestamp", Json.num 999000)])],
      ∃ ts, entryTimestamp pr.2 = .ok ts ∧ now9 - ts < 7 * 24 * 60 * 60)
    ∧ ∀ fs, (some doc9).getD (.obj []) = .obj fs →
        [(("b" : String), Json.obj [("timestamp", Json.num 999000)])] =
          fs.filter (fun pr => entryLive now9 pr.2) :=
  c9_prune_invariant now9 (some doc9)
    [(("b" : String), Json.obj [("timestamp", Json.num 999000)])] rfl

/-- C10: on a cache hit (live entry, and the cwd containment check passes or
is skipped), `resolve_project_name` performs no persistence: the cache file
is not rewritten, auto-discovery is not invoked, and the session-record
lookup does not run. -/
theorem c10_cache_hit_frame (env : ResolveEnv) (sid : String)
    (cwd : Option String) (cfields efields : List (String × Json))
    (nameJ : Json)
    (hclean : loadThenPrune env.now env.rawCache = .ok (.obj cfields))
    (hsid : findField cfields sid = some (.obj efields))
    (hname : findField efields "project_name" = some nameJ)
    (hhit : cwd = none ∨ ∃ c ppJ, cwd = some c ∧ c ≠ "" ∧
        findField efields "project_path" = some ppJ ∧
        is_cwd_under_project c ppJ = true) :
    (resolve_project_name env sid cwd).savedCache = none ∧
    (resolve_project_name env sid cwd).autoAdded = none ∧
    (resolve_project_name env sid cwd).lookedUp = false := by
  rcases hhit with hcwd | ⟨c, ppJ, hc, hcne, hpp, hunder⟩
  · subst hcwd
    simp [resolve_project_name, hclean, hsid, pyItem, hname, cwdTruthy]
  · subst hc
    simp [resolve_project_name, hclean, hsid, pyItem, hname, cwdTruthy,
      bne_iff_ne, hcne, hasKeyB, hpp, hunder]

/-- Witness for C10 on the concrete live entry. -/
theorem c10_cache_hit_frame_witness :
    (resolve_project_name envHit "sess" none).savedCache = none ∧
    (resolve_project_name envHit "sess" none).autoAdded = none ∧
    (resolve_project_name envHit "sess" none).lookedUp = false :=
  c10_cache_hit_frame envHit "sess" none _ _ _ rfl rfl rfl (.inl rfl)

end CCNotify
